import Mathlib

/-!
Verification of the lung-disease detection script (`main.py`).

The script is embedded shallowly:

* probabilities are rationals (`Prob := ℚ`);
* each `print` call becomes one `OutLine` value, so a run produces a
  `List OutLine`;
* Python exceptions become `Except PyErr` / `Option PyErr` values that are
  threaded explicitly;
* the external dependencies (the file system, `tf.keras.models.load_model`,
  the image loader and the model's `predict`) are parameters of the
  embedded functions, since the repository delegates them to libraries.
-/

namespace LungAI

abbrev Prob := ℚ

abbrev PyErr := String

/-- The dict `METADATA["thresholds"]` from `main.py` lines 12-18, as an
association list (a Python dict with string keys). -/
def METADATA_thresholds : List (String × Prob) :=
  [("Covid", 1241/10000),
   ("Normal", 1651/10000),
   ("Pneumonia", 2921/10000),
   ("Tuberculosis", 1766/10000),
   ("Tumor", 1009/10000)]

/-- The dict `METADATA["class_names"]` from `main.py` lines 20-26: class id
(0-4) to class name. -/
def METADATA_class_names : List (Nat × String) :=
  [(0, "Covid"),
   (1, "Normal"),
   (2, "Pneumonia"),
   (3, "Tuberculosis"),
   (4, "Tumor")]

/-- The constant `MODEL_PATH` from `main.py` line 29. -/
def MODEL_PATH : String := "final_lung_ai_v1.h5"

/-- One printed line of the program.  Each constructor corresponds to one
`print` (or `input` prompt) in `main.py`, carrying the data interpolated
into the printed f-string. -/
inductive OutLine where
  | loadingBrain : OutLine
  | systemOnline : OutLine
  | prompt : OutLine
  | fileNotFound (img_path : String) : OutLine
  | analyzing (patient : String) : OutLine
  | reportHeader : OutLine
  | row (name : String) (prob : Prob) (cutoff : Prob) (status : String) : OutLine
  | separator : OutLine
  | finalDiagnosis (text : String) : OutLine
  | criticalError (msg : String) : OutLine
  deriving DecidableEq, Repr

/-- The external model object `self.model`.  Its `predict` method is an
external call that may raise. -/
structure Model (Img : Type) where
  predict : Img → Except PyErr (List Prob)

/-- The state of a `LungDoctor` object: it holds only the loaded model. -/
structure LungDoctor (Img : Type) where
  model : Model Img

/-- POSIX `os.path.basename`, used only for display. -/
def basename (p : String) : String := (p.splitOn "/").getLastD p

variable {Img : Type}

/-- The constructor `LungDoctor.__init__` (`main.py` lines 35-41): print,
check that the model file exists (raising `FileNotFoundError` otherwise),
load the model once, print.  `load_model` is the external
`tf.keras.models.load_model`. -/
def LungDoctor.init (fs : String → Bool)
    (load_model : String → Except PyErr (Model Img)) :
    List OutLine × Except PyErr (LungDoctor Img) :=
  if fs MODEL_PATH = false then
    ([OutLine.loadingBrain],
     Except.error ("❌ Model file " ++ MODEL_PATH ++ " not found!"))
  else
    match load_model MODEL_PATH with
    | Except.error e => ([OutLine.loadingBrain], Except.error e)
    | Except.ok m => ([OutLine.loadingBrain, OutLine.systemOnline], Except.ok ⟨m⟩)

/-- The report loop of `diagnose` (`main.py` lines 67-78) over
`enumerate(predictions)`: per class, look up the name by index and the
threshold by name (a failed dict lookup is a `KeyError`), compare
`prob > threshold`, print a row, and append detected names to `findings`.
Returns (printed rows, findings, error if a lookup failed). -/
def diagnose_loop : List (Nat × Prob) → List OutLine × List String × Option PyErr
  | [] => ([], [], none)
  | (idx, prob) :: rest =>
    match METADATA_class_names.lookup idx with
    | none => ([], [], some "KeyError")
    | some name =>
      match METADATA_thresholds.lookup name with
      | none => ([], [], some "KeyError")
      | some threshold =>
        let status := if prob > threshold then "⚠️ DETECTED" else "Clear"
        let r := diagnose_loop rest
        (OutLine.row name prob threshold status :: r.1,
         (if prob > threshold then [name] else []) ++ r.2.1,
         r.2.2)

/-- The final-conclusion branch of `diagnose` (`main.py` lines 81-91). -/
def final_conclusion (findings : List String) : OutLine :=
  if "Normal" ∈ findings ∧ findings.length = 1 then
    OutLine.finalDiagnosis "✅ FINAL DIAGNOSIS: Healthy Lungs"
  else if findings ≠ [] then
    let real_diseases := findings.filter (fun f => f ≠ "Normal")
    if real_diseases ≠ [] then
      OutLine.finalDiagnosis
        ("🚨 FINAL DIAGNOSIS: Signs of " ++ String.intercalate ", " real_diseases)
    else
      OutLine.finalDiagnosis "✅ FINAL DIAGNOSIS: Healthy Lungs"
  else
    OutLine.finalDiagnosis "❓ FINAL DIAGNOSIS: Inconclusive (Low confidence)"

/-- Steps 2-3 of `diagnose` (`main.py` lines 63-91): the detailed-report
header, the per-class rows, and (when no lookup failed) the separator and
the final conclusion.  This part depends only on the prediction vector. -/
def report_section (predictions : List Prob) : List OutLine × Option PyErr :=
  match diagnose_loop predictions.enum with
  | (rows, findings, none) =>
    (OutLine.reportHeader :: rows ++ [OutLine.separator, final_conclusion findings],
     none)
  | (rows, _, some e) => (OutLine.reportHeader :: rows, some e)

/-- The method `LungDoctor.diagnose` (`main.py` lines 51-91).  `fs` is
`os.path.exists`; `preprocess_image` is the method of lines 43-49, which
only calls external image/numpy routines, so it is kept abstract (it may
raise, e.g. on an unreadable image).  Returns (printed lines, uncaught
exception if any, the object state after the call). -/
def LungDoctor.diagnose (self : LungDoctor Img) (fs : String → Bool)
    (preprocess_image : String → Except PyErr Img) (img_path : String) :
    List OutLine × Option PyErr × LungDoctor Img :=
  if fs img_path = false then
    ([OutLine.fileNotFound img_path], none, self)
  else
    match preprocess_image img_path with
    | Except.error e => ([OutLine.analyzing (basename img_path)], some e, self)
    | Except.ok processed_img =>
      match self.model.predict processed_img with
      | Except.error e => ([OutLine.analyzing (basename img_path)], some e, self)
      | Except.ok predictions =>
        (OutLine.analyzing (basename img_path) :: (report_section predictions).1,
         (report_section predictions).2,
         self)

/-- Python `str.strip()` on a character list: drop whitespace from both
ends. -/
def strip_ws (cs : List Char) : List Char :=
  ((cs.dropWhile Char.isWhitespace).reverse.dropWhile Char.isWhitespace).reverse

/-- The input cleanup of `main.py` line 103:
`input(...).strip().replace('"', '').replace("'", "")`.  Both `replace`
calls delete every occurrence of a single character (the double and single
quote, code points 34 and 39), so they are modelled as one character
filter after the strip. -/
def strip_quotes (raw : String) : String :=
  ((strip_ws raw.toList).filter
    (fun c => !(c = Char.ofNat 34 || c = Char.ofNat 39))).asString

/-- Python `str.lower()` on the underlying characters. -/
def lower_string (s : String) : String := (s.toList.map Char.toLower).asString

/-- The exit test `path.lower() in ['exit', 'quit']` of `main.py` line 104. -/
def is_exit_command (path : String) : Bool :=
  lower_string path == "exit" || lower_string path == "quit"

/-- The `while True` command loop (`main.py` lines 102-108) run on a list
of stdin lines: each iteration prints the prompt, cleans the input, breaks
on exit/quit, skips empty paths, and otherwise calls `diagnose`.  An
uncaught exception from `diagnose` aborts the loop; exhausting stdin makes
`input()` raise `EOFError`.  Returns (printed lines, uncaught exception if
any, final doctor state). -/
def main_loop (fs : String → Bool)
    (preprocess_image : String → Except PyErr Img) (doctor : LungDoctor Img) :
    List String → List OutLine × Option PyErr × LungDoctor Img
  | [] => ([OutLine.prompt], some "EOFError", doctor)
  | raw :: rest =>
    let path := strip_quotes raw
    if is_exit_command path then
      ([OutLine.prompt], none, doctor)
    else if path = "" then
      let r := main_loop fs preprocess_image doctor rest
      (OutLine.prompt :: r.1, r.2.1, r.2.2)
    else
      let s := doctor.diagnose fs preprocess_image path
      match s.2.1 with
      | some e => (OutLine.prompt :: s.1, some e, s.2.2)
      | none =>
        let r := main_loop fs preprocess_image s.2.2 rest
        (OutLine.prompt :: s.1 ++ r.1, r.2.1, r.2.2)

/-- The `__main__` block (`main.py` lines 96-111): construct the doctor,
run the command loop, and catch any exception at top level, printing the
critical-error line.  Returns the complete printed output. -/
def main (fs : String → Bool) (load_model : String → Except PyErr (Model Img))
    (preprocess_image : String → Except PyErr Img) (inputs : List String) :
    List OutLine :=
  match LungDoctor.init fs load_model with
  | (outs, Except.error e) => outs ++ [OutLine.criticalError e]
  | (outs, Except.ok doctor) =>
    match main_loop fs preprocess_image doctor inputs with
    | (louts, some e, _) => outs ++ louts ++ [OutLine.criticalError e]
    | (louts, none, _) => outs ++ louts

/-- The final-diagnosis line produced for a prediction vector, when the
report loop completes without a lookup error. -/
def final_line (predictions : List Prob) : Option OutLine :=
  match diagnose_loop predictions.enum with
  | (_, findings, none) => some (final_conclusion findings)
  | (_, _, some _) => none

/-- The non-Normal classes detected in a 5-class prediction vector, in
class-index order, with the thresholds of `METADATA`. -/
def detected_real_diseases (p0 p2 p3 p4 : Prob) : List String :=
  (if p0 > 1241/10000 then ["Covid"] else []) ++
  ((if p2 > 2921/10000 then ["Pneumonia"] else []) ++
   ((if p3 > 1766/10000 then ["Tuberculosis"] else []) ++
    ((if p4 > 1009/10000 then ["Tumor"] else []) ++ [])))

/-- Recognizes a per-class report row among printed lines. -/
def is_row_line : OutLine → Bool
  | OutLine.row _ _ _ _ => true
  | _ => false

/-- Recognizes a final-diagnosis line among printed lines. -/
def is_final_line : OutLine → Bool
  | OutLine.finalDiagnosis _ => true
  | _ => false

/-- A trivial file system on which every path exists, for concrete runs. -/
def witness_fs : String → Bool := fun _ => true

/-- A trivial file system on which no path exists, for concrete runs. -/
def witness_fs_none : String → Bool := fun _ => false

/-- A trivial preprocessing function for concrete runs. -/
def witness_pre : String → Except PyErr Unit := fun _ => Except.ok ()

/-- A concrete model that always predicts Covid with certainty. -/
def witness_model : Model Unit := ⟨fun _ => Except.ok [1, 0, 0, 0, 0]⟩

/-- A concrete doctor holding `witness_model`. -/
def witness_doctor : LungDoctor Unit := ⟨witness_model⟩

/-- A loader that always succeeds with `witness_model`. -/
def witness_load : String → Except PyErr (Model Unit) :=
  fun _ => Except.ok witness_model

/-- A loader that agrees with `witness_load` at `MODEL_PATH` only. -/
def witness_load2 : String → Except PyErr (Model Unit) :=
  fun p => if p = MODEL_PATH then Except.ok witness_model else Except.error "other"

/-- A loader that always raises, for exercising the top-level handler. -/
def witness_load_err : String → Except PyErr (Model Unit) :=
  fun _ => Except.error "LoadError"

/-! ### Helper lemmas -/

/-- Evaluation of the report loop on a 5-class prediction vector: one row
per class, and `findings` collects exactly the names whose probability
strictly exceeds their threshold, in class-index order. -/
theorem diagnose_loop_eval (p0 p1 p2 p3 p4 : Prob) :
    diagnose_loop (List.enum [p0, p1, p2, p3, p4]) =
      ([OutLine.row "Covid" p0 (1241/10000) (if p0 > 1241/10000 then "⚠️ DETECTED" else "Clear"),
        OutLine.row "Normal" p1 (1651/10000) (if p1 > 1651/10000 then "⚠️ DETECTED" else "Clear"),
        OutLine.row "Pneumonia" p2 (2921/10000) (if p2 > 2921/10000 then "⚠️ DETECTED" else "Clear"),
        OutLine.row "Tuberculosis" p3 (1766/10000) (if p3 > 1766/10000 then "⚠️ DETECTED" else "Clear"),
        OutLine.row "Tumor" p4 (1009/10000) (if p4 > 1009/10000 then "⚠️ DETECTED" else "Clear")],
       (if p0 > 1241/10000 then ["Covid"] else []) ++
         ((if p1 > 1651/10000 then ["Normal"] else []) ++
          ((if p2 > 2921/10000 then ["Pneumonia"] else []) ++
           ((if p3 > 1766/10000 then ["Tuberculosis"] else []) ++
            ((if p4 > 1009/10000 then ["Tumor"] else []) ++ [])))),
       none) := rfl

theorem is_row_line_row (n : String) (p c : Prob) (s : String) :
    is_row_line (OutLine.row n p c s) = true := rfl

theorem is_row_line_analyzing (s : String) : is_row_line (OutLine.analyzing s) = false := rfl

theorem is_row_line_reportHeader : is_row_line OutLine.reportHeader = false := rfl

theorem is_row_line_separator : is_row_line OutLine.separator = false := rfl

theorem is_final_line_row (n : String) (p c : Prob) (s : String) :
    is_final_line (OutLine.row n p c s) = false := rfl

theorem is_final_line_analyzing (s : String) : is_final_line (OutLine.analyzing s) = false := rfl

theorem is_final_line_reportHeader : is_final_line OutLine.reportHeader = false := rfl

theorem is_final_line_separator : is_final_line OutLine.separator = false := rfl

/-- The final conclusion is always printed as a final-diagnosis line. -/
theorem is_final_line_final_conclusion (findings : List String) :
    is_final_line (final_conclusion findings) = true := by
  simp only [final_conclusion]
  split_ifs <;> rfl

/-- The final conclusion is never printed as a report row. -/
theorem is_row_line_final_conclusion (findings : List String) :
    is_row_line (final_conclusion findings) = false := by
  simp only [final_conclusion]
  split_ifs <;> rfl

/-- `diagnose` never assigns to `self`: the object state after any call is
the state before it. -/
theorem diagnose_preserves_self (d : LungDoctor Img) (fs : String → Bool)
    (pre : String → Except PyErr Img) (p : String) :
    (d.diagnose fs pre p).2.2 = d := by
  unfold LungDoctor.diagnose
  split
  · rfl
  · split
    · rfl
    · split <;> rfl

/-- The command loop threads the doctor object through unchanged: no
iteration replaces it. -/
theorem main_loop_preserves_doctor (fs : String → Bool)
    (pre : String → Except PyErr Img) :
    ∀ (inputs : List String) (d : LungDoctor Img),
      (main_loop fs pre d inputs).2.2 = d := by
  intro inputs
  induction inputs with
  | nil => intro d; rfl
  | cons raw rest ih =>
    intro d
    simp only [main_loop]
    split
    · rfl
    · split
      · exact ih d
      · split
        · exact diagnose_preserves_self d fs pre (strip_quotes raw)
        · rw [diagnose_preserves_self d fs pre (strip_quotes raw)]
          exact ih d

/-! ### Claims -/

/-- C1 counterexample: at the prediction vector (0.5, 0.5, 0, 0, 0) both
Normal (threshold 0.1651) and the disease class Covid (threshold 0.1241)
exceed their thresholds, yet the final diagnosis is "Signs of Covid", not
the healthy report: the tie-break is not Normal-overrides-disease. -/
theorem normal_does_not_override_disease :
    ((1:ℚ)/2 > 1651/10000 ∧ (1:ℚ)/2 > 1241/10000) ∧
    final_line [(1:ℚ)/2, 1/2, 0, 0, 0] =
      some (OutLine.finalDiagnosis "🚨 FINAL DIAGNOSIS: Signs of Covid") ∧
    final_line [(1:ℚ)/2, 1/2, 0, 0, 0] ≠
      some (OutLine.finalDiagnosis "✅ FINAL DIAGNOSIS: Healthy Lungs") := by
  have c0 : (1:ℚ)/2 > 1241/10000 := by norm_num
  have cN : (1:ℚ)/2 > 1651/10000 := by norm_num
  have c2 : ¬ (0:ℚ) > 2921/10000 := by norm_num
  have c3 : ¬ (0:ℚ) > 1766/10000 := by norm_num
  have c4 : ¬ (0:ℚ) > 1009/10000 := by norm_num
  refine ⟨⟨cN, c0⟩, ?_, ?_⟩ <;>
    simp only [final_line, diagnose_loop_eval, c0, cN, c2, c3, c4, if_true, if_false,
      ite_true, ite_false, not_false_iff] <;> decide

/-- C1 (amended): whenever both Normal and at least one disease class
exceed their thresholds, the tie-break is disease-overrides-Normal: the
final diagnosis reports the detected disease names (Normal filtered out),
not the healthy report. -/
theorem disease_overrides_normal (p0 p1 p2 p3 p4 : Prob)
    (hN : p1 > 1651/10000)
    (hD : p0 > 1241/10000 ∨ p2 > 2921/10000 ∨ p3 > 1766/10000 ∨ p4 > 1009/10000) :
    final_line [p0, p1, p2, p3, p4] =
      some (OutLine.finalDiagnosis ("🚨 FINAL DIAGNOSIS: Signs of " ++
        String.intercalate ", " (detected_real_diseases p0 p2 p3 p4))) ∧
    final_line [p0, p1, p2, p3, p4] ≠
      some (OutLine.finalDiagnosis "✅ FINAL DIAGNOSIS: Healthy Lungs") := by
  by_cases h0 : p0 > 1241/10000 <;> by_cases h2 : p2 > 2921/10000 <;>
    by_cases h3 : p3 > 1766/10000 <;> by_cases h4 : p4 > 1009/10000 <;>
    simp only [final_line, diagnose_loop_eval, detected_real_diseases,
      hN, h0, h2, h3, h4, if_true, if_false, ite_true, ite_false, not_false_iff,
      or_self, or_true, true_or, or_false, false_or] at hD ⊢ <;>
    exact ⟨by decide, by decide⟩

/-- C1 (amended) witness: a concrete vector with Normal and Covid both
detected reports "Signs of Covid". -/
theorem disease_overrides_normal_witness :
    final_line [(1:ℚ)/2, (1:ℚ)/2, 0, 0, 0] =
      some (OutLine.finalDiagnosis ("🚨 FINAL DIAGNOSIS: Signs of " ++
        String.intercalate ", " (detected_real_diseases ((1:ℚ)/2) 0 0 0))) ∧
    final_line [(1:ℚ)/2, (1:ℚ)/2, 0, 0, 0] ≠
      some (OutLine.finalDiagnosis "✅ FINAL DIAGNOSIS: Healthy Lungs") :=
  disease_overrides_normal ((1:ℚ)/2) ((1:ℚ)/2) 0 0 0 (by norm_num)
    (Or.inl (by norm_num))

/-- C2: whenever at least one non-Normal class exceeds its threshold, the
final diagnosis reports exactly the detected non-Normal class names joined
by ", ", regardless of whether Normal was also detected (p1 is
unconstrained). -/
theorem diseases_joined (p0 p1 p2 p3 p4 : Prob)
    (hD : detected_real_diseases p0 p2 p3 p4 ≠ []) :
    final_line [p0, p1, p2, p3, p4] =
      some (OutLine.finalDiagnosis ("🚨 FINAL DIAGNOSIS: Signs of " ++
        String.intercalate ", " (detected_real_diseases p0 p2 p3 p4))) := by
  by_cases h0 : p0 > 1241/10000 <;> by_cases h1 : p1 > 1651/10000 <;>
    by_cases h2 : p2 > 2921/10000 <;> by_cases h3 : p3 > 1766/10000 <;>
    by_cases h4 : p4 > 1009/10000 <;>
    simp only [final_line, diagnose_loop_eval, detected_real_diseases,
      h0, h1, h2, h3, h4, if_true, if_false, ite_true, ite_false, not_false_iff,
      List.append_nil, List.nil_append, ne_eq, not_true] at hD ⊢ <;>
    decide

/-- C2 witness: a lone Covid detection reports "Signs of Covid". -/
theorem diseases_joined_witness :
    final_line [(1:ℚ), 0, 0, 0, 0] =
      some (OutLine.finalDiagnosis ("🚨 FINAL DIAGNOSIS: Signs of " ++
        String.intercalate ", " (detected_real_diseases 1 0 0 0))) :=
  diseases_joined 1 0 0 0 0 (by norm_num [detected_real_diseases])

/-- C3: when Normal is the only class exceeding its threshold, the final
diagnosis reports healthy lungs. -/
theorem lone_normal_healthy (p0 p1 p2 p3 p4 : Prob)
    (hN : p1 > 1651/10000)
    (h0 : ¬ p0 > 1241/10000) (h2 : ¬ p2 > 2921/10000)
    (h3 : ¬ p3 > 1766/10000) (h4 : ¬ p4 > 1009/10000) :
    final_line [p0, p1, p2, p3, p4] =
      some (OutLine.finalDiagnosis "✅ FINAL DIAGNOSIS: Healthy Lungs") := by
  simp only [final_line, diagnose_loop_eval, hN, h0, h2, h3, h4,
    if_true, if_false, ite_true, ite_false, not_false_iff]
  decide

/-- C3 witness: a lone Normal detection reports healthy lungs. -/
theorem lone_normal_healthy_witness :
    final_line [(0:ℚ), 1, 0, 0, 0] =
      some (OutLine.finalDiagnosis "✅ FINAL DIAGNOSIS: Healthy Lungs") :=
  lone_normal_healthy 0 1 0 0 0 (by norm_num) (by norm_num) (by norm_num)
    (by norm_num) (by norm_num)

/-- C4: for every 5-class prediction vector, the report loop produces one
row per class whose status is DETECTED exactly when the probability
strictly exceeds that class's threshold from `METADATA` (Covid 0.1241,
Normal 0.1651, Pneumonia 0.2921, Tuberculosis 0.1766, Tumor 0.1009) and
Clear otherwise, raises no lookup error, and a class name is in `findings`
if and only if its probability strictly exceeds its threshold. -/
theorem detection_iff_threshold (p0 p1 p2 p3 p4 : Prob) :
    diagnose_loop (List.enum [p0, p1, p2, p3, p4]) =
      ([OutLine.row "Covid" p0 (1241/10000) (if p0 > 1241/10000 then "⚠️ DETECTED" else "Clear"),
        OutLine.row "Normal" p1 (1651/10000) (if p1 > 1651/10000 then "⚠️ DETECTED" else "Clear"),
        OutLine.row "Pneumonia" p2 (2921/10000) (if p2 > 2921/10000 then "⚠️ DETECTED" else "Clear"),
        OutLine.row "Tuberculosis" p3 (1766/10000) (if p3 > 1766/10000 then "⚠️ DETECTED" else "Clear"),
        OutLine.row "Tumor" p4 (1009/10000) (if p4 > 1009/10000 then "⚠️ DETECTED" else "Clear")],
       (if p0 > 1241/10000 then ["Covid"] else []) ++
         ((if p1 > 1651/10000 then ["Normal"] else []) ++
          ((if p2 > 2921/10000 then ["Pneumonia"] else []) ++
           ((if p3 > 1766/10000 then ["Tuberculosis"] else []) ++
            ((if p4 > 1009/10000 then ["Tumor"] else []) ++ [])))),
       none) ∧
    (("Covid" ∈ (diagnose_loop (List.enum [p0, p1, p2, p3, p4])).2.1 ↔ p0 > 1241/10000) ∧
     ("Normal" ∈ (diagnose_loop (List.enum [p0, p1, p2, p3, p4])).2.1 ↔ p1 > 1651/10000) ∧
     ("Pneumonia" ∈ (diagnose_loop (List.enum [p0, p1, p2, p3, p4])).2.1 ↔ p2 > 2921/10000) ∧
     ("Tuberculosis" ∈ (diagnose_loop (List.enum [p0, p1, p2, p3, p4])).2.1 ↔ p3 > 1766/10000) ∧
     ("Tumor" ∈ (diagnose_loop (List.enum [p0, p1, p2, p3, p4])).2.1 ↔ p4 > 1009/10000)) := by
  refine ⟨diagnose_loop_eval p0 p1 p2 p3 p4, ?_, ?_, ?_, ?_, ?_⟩ <;>
    (by_cases h0 : p0 > 1241/10000 <;> by_cases h1 : p1 > 1651/10000 <;>
       by_cases h2 : p2 > 2921/10000 <;> by_cases h3 : p3 > 1766/10000 <;>
       by_cases h4 : p4 > 1009/10000 <;>
       simp only [diagnose_loop_eval, h0, h1, h2, h3, h4,
         if_true, if_false, ite_true, ite_false, not_false_iff,
         iff_true, iff_false, true_iff, false_iff] <;>
       decide)

/-- C5: on a successfully diagnosed image with a 5-class prediction
vector, the printed output of `diagnose` contains exactly five per-class
report rows and exactly one final-diagnosis line. -/
theorem per_class_report_shape (Img : Type) (fs : String → Bool)
    (pre : String → Except PyErr Img) (d : LungDoctor Img)
    (img_path : String) (img : Img) (p0 p1 p2 p3 p4 : Prob)
    (hfs : fs img_path = true)
    (hpre : pre img_path = Except.ok img)
    (hpred : d.model.predict img = Except.ok [p0, p1, p2, p3, p4]) :
    ((d.diagnose fs pre img_path).1.filter is_row_line).length = 5 ∧
    ((d.diagnose fs pre img_path).1.filter is_final_line).length = 1 := by
  simp only [LungDoctor.diagnose, hfs, report_section, hpre, hpred,
    diagnose_loop_eval, Bool.true_eq_false, if_false, ite_false]
  simp only [List.filter_cons, List.filter_append, List.filter_nil,
    is_row_line_row, is_row_line_analyzing, is_row_line_reportHeader,
    is_row_line_separator, is_row_line_final_conclusion,
    is_final_line_row, is_final_line_analyzing, is_final_line_reportHeader,
    is_final_line_separator, is_final_line_final_conclusion,
    if_true, if_false, ite_true, ite_false]
  simp

/-- C5 witness: a concrete successful diagnosis prints five rows and one
final-diagnosis line. -/
theorem per_class_report_shape_witness :
    ((witness_doctor.diagnose witness_fs witness_pre "x.png").1.filter is_row_line).length = 5 ∧
    ((witness_doctor.diagnose witness_fs witness_pre "x.png").1.filter is_final_line).length = 1 :=
  per_class_report_shape Unit witness_fs witness_pre witness_doctor "x.png" ()
    1 0 0 0 0 rfl rfl rfl

/-- C6: `diagnose` leaves `self.model` unchanged for every input path, the
command loop leaves the doctor's model unchanged over any list of inputs,
and the program's output depends on the loader only through its value at
`MODEL_PATH` — the model is loaded exactly once, at construction, before
the loop. -/
theorem model_loaded_once (Img : Type) :
    (∀ (fs : String → Bool) (pre : String → Except PyErr Img) (d : LungDoctor Img)
       (p : String), ((d.diagnose fs pre p).2.2).model = d.model) ∧
    (∀ (fs : String → Bool) (pre : String → Except PyErr Img) (d : LungDoctor Img)
       (inputs : List String), ((main_loop fs pre d inputs).2.2).model = d.model) ∧
    (∀ (fs : String → Bool) (lm lm2 : String → Except PyErr (Model Img))
       (pre : String → Except PyErr Img) (inputs : List String),
       lm MODEL_PATH = lm2 MODEL_PATH → main fs lm pre inputs = main fs lm2 pre inputs) := by
  refine ⟨?_, ?_, ?_⟩
  · intro fs pre d p
    rw [diagnose_preserves_self]
  · intro fs pre d inputs
    rw [main_loop_preserves_doctor]
  · intro fs lm lm2 pre inputs h
    unfold main LungDoctor.init
    rw [h]

/-- C6 witness: two loaders agreeing at `MODEL_PATH` produce the same
program output on a concrete run. -/
theorem model_loaded_once_witness :
    main witness_fs witness_load witness_pre ["exit"] =
      main witness_fs witness_load2 witness_pre ["exit"] :=
  (model_loaded_once Unit).2.2 witness_fs witness_load witness_load2 witness_pre
    ["exit"] (by simp [witness_load, witness_load2])

/-- C7: for a non-empty existing path, `diagnose` is the sequential
pipeline preprocess-then-predict-then-report: its output is the analyzing
line followed by the report section computed from the prediction vector
alone; it depends on the preprocessing function only through its value at
the given path, and on the model only through `predict` at the
preprocessed image. -/
theorem sequential_pipeline (Img : Type) (fs : String → Bool)
    (pre : String → Except PyErr Img) (d : LungDoctor Img)
    (img_path : String) (img : Img) (predictions : List Prob)
    (hfs : fs img_path = true)
    (hpre : pre img_path = Except.ok img)
    (hpred : d.model.predict img = Except.ok predictions) :
    d.diagnose fs pre img_path =
      (OutLine.analyzing (basename img_path) :: (report_section predictions).1,
       (report_section predictions).2, d) ∧
    (∀ pre2 : String → Except PyErr Img, pre2 img_path = pre img_path →
       d.diagnose fs pre2 img_path = d.diagnose fs pre img_path) ∧
    (∀ d2 : LungDoctor Img, d2.model.predict img = d.model.predict img →
       (d2.diagnose fs pre img_path).1 = (d.diagnose fs pre img_path).1 ∧
       (d2.diagnose fs pre img_path).2.1 = (d.diagnose fs pre img_path).2.1) := by
  refine ⟨?_, ?_, ?_⟩
  · simp only [LungDoctor.diagnose, hfs, hpre, hpred, Bool.true_eq_false, if_false, ite_false]
  · intro pre2 h2
    simp only [LungDoctor.diagnose, h2]
  · intro d2 h2
    simp only [LungDoctor.diagnose, hfs, hpre, hpred, h2, Bool.true_eq_false,
      if_false, ite_false]
    trivial

/-- C7 witness: a concrete successful diagnosis equals the analyzing line
plus the report section of its prediction vector. -/
theorem sequential_pipeline_witness :
    witness_doctor.diagnose witness_fs witness_pre "x.png" =
      (OutLine.analyzing (basename "x.png") :: (report_section [1, 0, 0, 0, 0]).1,
       (report_section [1, 0, 0, 0, 0]).2, witness_doctor) :=
  (sequential_pipeline Unit witness_fs witness_pre witness_doctor "x.png" ()
    [1, 0, 0, 0, 0] rfl rfl rfl).1

/-- C8: the only failure recovery is the top-level catch: an exception
from model loading makes the program print the init output plus one
critical-error line; an exception escaping the command loop makes it print
the loop output so far plus one critical-error line; and once an iteration
of the loop raises, the remaining inputs are never processed (the loop's
result does not depend on them). -/
theorem top_level_catch (Img : Type) :
    (∀ (fs : String → Bool) (lm : String → Except PyErr (Model Img))
       (pre : String → Except PyErr Img) (inputs : List String)
       (outs : List OutLine) (e : PyErr),
       LungDoctor.init fs lm = (outs, Except.error e) →
       main fs lm pre inputs = outs ++ [OutLine.criticalError e]) ∧
    (∀ (fs : String → Bool) (lm : String → Except PyErr (Model Img))
       (pre : String → Except PyErr Img) (inputs : List String)
       (outs louts : List OutLine) (d d2 : LungDoctor Img) (e : PyErr),
       LungDoctor.init fs lm = (outs, Except.ok d) →
       main_loop fs pre d inputs = (louts, some e, d2) →
       main fs lm pre inputs = outs ++ louts ++ [OutLine.criticalError e]) ∧
    (∀ (fs : String → Bool) (pre : String → Except PyErr Img) (d : LungDoctor Img)
       (raw : String) (rest rest2 : List String) (e : PyErr),
       is_exit_command (strip_quotes raw) = false →
       strip_quotes raw ≠ "" →
       (d.diagnose fs pre (strip_quotes raw)).2.1 = some e →
       main_loop fs pre d (raw :: rest) = main_loop fs pre d (raw :: rest2)) := by
  refine ⟨?_, ?_, ?_⟩
  · intro fs lm pre inputs outs e h
    unfold main
    rw [h]
  · intro fs lm pre inputs outs louts d d2 e h1 h2
    unfold main
    rw [h1]
    simp only [h2]
  · intro fs pre d raw rest rest2 e hexit hpath herr
    simp only [main_loop, hexit, hpath, herr, Bool.false_eq_true, if_false, ite_false]

/-- C8 witness: a failing loader makes the concrete program print the
loading line and then the critical-error line. -/
theorem top_level_catch_witness :
    main witness_fs witness_load_err witness_pre ["a"] =
      [OutLine.loadingBrain] ++ [OutLine.criticalError "LoadError"] :=
  (top_level_catch Unit).1 witness_fs witness_load_err witness_pre ["a"]
    [OutLine.loadingBrain] "LoadError" rfl

/-- C9: for a path that does not exist, `diagnose` prints only the
file-not-found line and returns normally with the object unchanged — for
any preprocessing function and any doctor, so neither preprocessing nor
inference is invoked — and the command loop continues with the next input
after such a path. -/
theorem missing_file_skips (Img : Type) (fs : String → Bool)
    (pre : String → Except PyErr Img) (d : LungDoctor Img)
    (path raw : String) (rest : List String)
    (hfs : fs path = false) :
    (∀ (pre2 : String → Except PyErr Img) (d2 : LungDoctor Img),
       d2.diagnose fs pre2 path = ([OutLine.fileNotFound path], none, d2)) ∧
    (strip_quotes raw = path → is_exit_command path = false → path ≠ "" →
       main_loop fs pre d (raw :: rest) =
         (OutLine.prompt :: OutLine.fileNotFound path :: (main_loop fs pre d rest).1,
          (main_loop fs pre d rest).2.1, (main_loop fs pre d rest).2.2)) := by
  constructor
  · intro pre2 d2
    simp only [LungDoctor.diagnose, hfs, if_true, ite_true]
  · intro hraw hexit hpath
    simp only [main_loop, hraw, hexit, hpath, Bool.false_eq_true, if_false, ite_false,
      LungDoctor.diagnose, hfs, if_true, ite_true]
    simp

/-- C9 witness: a concrete loop run on a missing path prints the
file-not-found line and continues to the next iteration. -/
theorem missing_file_skips_witness :
    main_loop witness_fs_none witness_pre witness_doctor ["nope.png"] =
      (OutLine.prompt :: OutLine.fileNotFound "nope.png" ::
         (main_loop witness_fs_none witness_pre witness_doctor []).1,
       (main_loop witness_fs_none witness_pre witness_doctor []).2.1,
       (main_loop witness_fs_none witness_pre witness_doctor []).2.2) :=
  (missing_file_skips Unit witness_fs_none witness_pre witness_doctor
    "nope.png" "nope.png" [] rfl).2 (by decide) (by decide) (by decide)

/-- C10: when no class exceeds its threshold the final diagnosis is the
inconclusive low-confidence line, and the non-Normal findings reported by
the loop are exactly the detected disease names in ascending class-index
order (Covid, Pneumonia, Tuberculosis, Tumor). -/
theorem low_confidence_and_ordered (p0 p1 p2 p3 p4 : Prob) :
    ((¬ p0 > 1241/10000) → (¬ p1 > 1651/10000) → (¬ p2 > 2921/10000) →
     (¬ p3 > 1766/10000) → (¬ p4 > 1009/10000) →
       final_line [p0, p1, p2, p3, p4] =
         some (OutLine.finalDiagnosis "❓ FINAL DIAGNOSIS: Inconclusive (Low confidence)")) ∧
    List.filter (fun f => f ≠ "Normal") (diagnose_loop (List.enum [p0, p1, p2, p3, p4])).2.1 =
      detected_real_diseases p0 p2 p3 p4 := by
  constructor
  · intro h0 h1 h2 h3 h4
    simp only [final_line, diagnose_loop_eval, h0, h1, h2, h3, h4,
      if_true, if_false, ite_true, ite_false, not_false_iff]
    decide
  · by_cases h0 : p0 > 1241/10000 <;> by_cases h1 : p1 > 1651/10000 <;>
      by_cases h2 : p2 > 2921/10000 <;> by_cases h3 : p3 > 1766/10000 <;>
      by_cases h4 : p4 > 1009/10000 <;>
      simp only [diagnose_loop_eval, detected_real_diseases,
        h0, h1, h2, h3, h4, if_true, if_false, ite_true, ite_false, not_false_iff] <;>
      decide

/-- C10 witness: the all-zero prediction vector yields the inconclusive
final diagnosis. -/
theorem low_confidence_and_ordered_witness :
    final_line [(0:ℚ), 0, 0, 0, 0] =
      some (OutLine.finalDiagnosis "❓ FINAL DIAGNOSIS: Inconclusive (Low confidence)") :=
  (low_confidence_and_ordered 0 0 0 0 0).1 (by norm_num) (by norm_num)
    (by norm_num) (by norm_num) (by norm_num)

end LungAI
